import Mathlib

/-!
Verification development for the clinical-trial ETL core:
a shallow embedding, in Lean 4, of the repository's transform stage
(src/etl/transform.py), load stage (src/etl/load.py) and paginated API
client (src/data/api_client.py), together with theorems settling the
specification claims C1-C10 about those components.

Python values flowing through the pipeline are modelled by the `Json`
inductive; Python dictionaries by association lists (`Dict`); fallible
Python code (code that can raise) by `Except`; the SQLite store by an
explicit table state threaded through the load functions, with the
transaction discipline of a single commit at the end of each call.
-/

namespace CTA

/-- A JSON value / generic Python object, as handled by the pipeline. -/
inductive Json where
  | null
  | bool (b : Bool)
  | num (n : Int)
  | str (s : String)
  | arr (xs : List Json)
  | obj (fields : List (String × Json))
deriving Repr

/-- Structural equality of JSON values (Python `==` on these shapes). -/
def jsonBeq : Json → Json → Bool
  | .null, .null => true
  | .bool a, .bool b => a == b
  | .num a, .num b => a == b
  | .str a, .str b => a == b
  | .arr xs, .arr ys => listBeq xs ys
  | .obj fs, .obj gs => fieldsBeq fs gs
  | _, _ => false
where
  listBeq : List Json → List Json → Bool
    | [], [] => true
    | x :: xs, y :: ys => jsonBeq x y && listBeq xs ys
    | _, _ => false
  fieldsBeq : List (String × Json) → List (String × Json) → Bool
    | [], [] => true
    | (k, v) :: fs, (l, w) :: gs => k == l && jsonBeq v w && fieldsBeq fs gs
    | _, _ => false

/-- Python truthiness of a JSON value (`if x:`). -/
def truthy : Json → Bool
  | .null => false
  | .bool b => b
  | .num n => n != 0
  | .str s => s != ""
  | .arr xs => !xs.isEmpty
  | .obj fs => !fs.isEmpty

/-- A Python dictionary with JSON values, as an association list
(insertion order, unique keys in practice). -/
abbrev Dict := List (String × Json)

/-- Python `d.get(k)` returning the stored value, `none` when absent. -/
def dictGet? (d : Dict) (k : String) : Option Json :=
  (d.find? (fun p => p.1 == k)).map (·.2)

/-- Removal of a key from a dictionary (effect of Python `d.pop(k)`). -/
def dictErase (d : Dict) (k : String) : Dict :=
  d.filter (fun p => !(p.1 == k))

/-- Python `d.pop(k)`: the value and the dictionary without the key;
`none` models the `KeyError` raised when the key is absent. -/
def dictPop (d : Dict) (k : String) : Option (Json × Dict) :=
  match dictGet? d k with
  | none => none
  | some v => some (v, dictErase d k)

/-- Python `d[k] = v`: update in place when the key exists, else append
at the end (insertion-order semantics of Python dictionaries). -/
def dictSet (d : Dict) (k : String) (v : Json) : Dict :=
  if (d.find? (fun p => p.1 == k)).isSome then
    d.map (fun p => if p.1 == k then (k, v) else p)
  else
    d ++ [(k, v)]

/-! ## Date normalisation (`parse_date`, src/etl/transform.py lines 15-55)

`datetime.strptime` for the three formats the source tries is embedded
following CPython's `_strptime` patterns: `%Y` matches exactly four
digits, `%m` one or two digits valued 1-12, `%d` one or two digits
valued 1-31, and the `datetime` constructor then requires a positive
year and a day that exists in the given month. -/

/-- Gregorian leap-year test, as used by Python's `datetime`. -/
def isLeap (y : Nat) : Bool :=
  y % 4 == 0 && (y % 100 != 0 || y % 400 == 0)

/-- Number of days of month `m` in year `y` (Python `datetime` calendar). -/
def daysInMonth (y m : Nat) : Nat :=
  if m == 2 then (if isLeap y then 29 else 28)
  else if m == 4 || m == 6 || m == 9 || m == 11 then 30
  else 31

/-- Numeric value of a digit string. -/
def digitsVal (cs : List Char) : Nat :=
  cs.foldl (fun a c => a * 10 + (c.toNat - 48)) 0

/-- Split a character list on the dash character (segments between
dashes, in order), mirroring how the dashed strptime formats decompose. -/
def splitDash : List Char → List (List Char)
  | [] => [[]]
  | c :: rest =>
    match splitDash rest with
    | g :: gs => if c == '-' then [] :: g :: gs else (c :: g) :: gs
    | [] => [[c]]

/-- The `%Y` field: exactly four digits, and `datetime` additionally
requires a positive year. -/
def parseYearSeg (cs : List Char) : Option Nat :=
  if cs.length == 4 && cs.all Char.isDigit && decide (1 ≤ digitsVal cs) then
    some (digitsVal cs)
  else none

/-- A `%m`-like or `%d`-like field: one or two digits, value between 1
and `hi` (the strptime pattern bound). -/
def parseNumSeg (hi : Nat) (cs : List Char) : Option Nat :=
  if (cs.length == 1 || cs.length == 2) && cs.all Char.isDigit
      && decide (1 ≤ digitsVal cs) && decide (digitsVal cs ≤ hi) then
    some (digitsVal cs)
  else none

/-- `datetime.strptime(s, "%Y-%m-%d")`: `some (y, m, d)` when it parses
to a real calendar date, `none` when it raises `ValueError`. -/
def strptimeYMD (cs : List Char) : Option (Nat × Nat × Nat) :=
  match splitDash cs with
  | [ys, ms, ds] =>
    match parseYearSeg ys, parseNumSeg 12 ms, parseNumSeg 31 ds with
    | some y, some m, some d =>
      if d ≤ daysInMonth y m then some (y, m, d) else none
    | _, _, _ => none
  | _ => none

/-- `datetime.strptime(s, "%Y-%m")`. -/
def strptimeYM (cs : List Char) : Option (Nat × Nat) :=
  match splitDash cs with
  | [ys, ms] =>
    match parseYearSeg ys, parseNumSeg 12 ms with
    | some y, some m => some (y, m)
    | _, _ => none
  | _ => none

/-- `datetime.strptime(s, "%Y")`. -/
def strptimeY (cs : List Char) : Option Nat :=
  match splitDash cs with
  | [ys] => parseYearSeg ys
  | _ => none

/-- Zero-padded two-digit rendering of a number (strftime `%m`, `%d`). -/
def pad2 (n : Nat) : String :=
  if n < 10 then "0" ++ toString n else toString n

/-- Zero-padded four-digit rendering of a year (strftime `%Y`). -/
def pad4 (n : Nat) : String :=
  if n < 10 then "000" ++ toString n
  else if n < 100 then "00" ++ toString n
  else if n < 1000 then "0" ++ toString n
  else toString n

/-- The date normaliser `parse_date` of src/etl/transform.py: `none`
for `None`, the empty string, and anything every format attempt rejects;
a 7-character input with a dash at index 4 gets `"-01"` appended with no
further validation; a 10-character input is returned unchanged when it
parses as `%Y-%m-%d`; otherwise the first 10 characters are tried
against `%Y-%m-%d`, `%Y-%m` and `%Y` in turn. All `ValueError`s /
`Exception`s the Python code catches are the `none` branches here. -/
def parse_date : Option String → Option String
  | none => none
  | some s =>
    if s == "" then none
    else
      let cs := s.data
      if cs.length == 7 && cs.getD 4 ' ' == '-' then
        some (s ++ "-01")
      else if cs.length == 10 then
        match strptimeYMD cs with
        | some _ => some s
        | none => none
      else
        let t := cs.take 10
        match strptimeYMD t with
        | some (y, m, d) => some (pad4 y ++ "-" ++ pad2 m ++ "-" ++ pad2 d)
        | none =>
          match strptimeYM t with
          | some _ => some (String.mk (cs.take 7) ++ "-01")
          | none =>
            match strptimeY t with
            | some _ => some (String.mk (cs.take 4) ++ "-01-01")
            | none => none

/-- A string is a calendar date at day granularity exactly when it has
the ten-character `YYYY-MM-DD` shape and denotes a real date. -/
def isCalendarDateString (s : String) : Bool :=
  s.data.length == 10 && (strptimeYMD s.data).isSome

/-- The phase joiner `parse_phase` (src/etl/transform.py lines 58-69),
on the JSON value found under `designModule.phases`: falsy values give
`none`; a list is joined with `", "` provided every element is a string
(a non-string element makes Python's `str.join` raise `TypeError`,
modelled as `Except.error`); a truthy non-list is likewise a
`TypeError` for the purposes of this pipeline's data. -/
def parse_phase (j : Json) : Except String (Option String) :=
  if !truthy j then .ok none
  else
    match j with
    | .arr xs =>
      match mapStrings xs with
      | some ss => .ok (some (joinComma ss))
      | none => .error "TypeError"
    | .str s => .ok (some (joinComma (s.data.map (fun c => String.mk [c]))))
    | .obj fs => .ok (some (joinComma (fs.map (·.1))))
    | _ => .error "TypeError"
where
  mapStrings : List Json → Option (List String)
    | [] => some []
    | .str s :: rest => (mapStrings rest).map (s :: ·)
    | _ :: _ => none
  joinComma : List String → String
    | [] => ""
    | [s] => s
    | s :: rest => s ++ ", " ++ joinComma rest

/-! ## Document transform (`transform_study`, src/etl/transform.py lines 72-111) -/

/-- Python `x.get(k, default)` on a pipeline value: only dictionaries
have `.get`; calling it on anything else (in particular on `None`, i.e.
on a JSON `null` stored under an intermediate key) raises
`AttributeError`, modelled as `Except.error`. -/
def jget (j : Json) (k : String) (default : Json) : Except String Json :=
  match j with
  | .obj fs =>
    match (fs.find? (fun p => p.1 == k)).map (·.2) with
    | some v => .ok v
    | none => .ok default
  | _ => .error "AttributeError"

/-- The date fields go through `parse_date`; a non-string value either
is falsy (returns early) or makes `len()` raise `TypeError`, which the
function's own generic handler turns into `None` — so on every
non-string JSON value the result is `none` and no exception escapes. -/
def parse_date_j : Json → Option String
  | .str s => parse_date (some s)
  | _ => none

/-- The flat studies-table row produced for one raw document: the
dictionary literal returned by `transform_study`. Field values that the
source code takes straight from `.get` calls are kept as JSON values
(with `null` for absent); the date fields and the phase display string
are the results of `parse_date` / `parse_phase`. -/
structure StudyRecord where
  nct_id : Json
  acronym : Json
  title : Json
  brief_summary : Json
  status : Json
  phase : Option String
  study_type : Json
  start_date : Option String
  completion_date : Option String
  primary_completion_date : Option String
  enrollment : Json
  enrollment_type : Json
deriving Repr

/-- One raw document projected to the studies-table shape
(`transform_study`): each nested module is fetched with
`.get(key, {})`, each leaf with `.get(key)`, dates are normalised,
phases joined, and the enrollment count is nulled when falsy
(`enrollment if enrollment else None`). Any `.get` on a non-dictionary
intermediate value propagates as an error (a raised exception). -/
def transform_study (study : Json) : Except String StudyRecord := do
  let protocol_section ← jget study "protocolSection" (.obj [])
  let identification ← jget protocol_section "identificationModule" (.obj [])
  let status ← jget protocol_section "statusModule" (.obj [])
  let design ← jget protocol_section "designModule" (.obj [])
  let _eligibility ← jget protocol_section "eligibilityModule" (.obj [])
  let description ← jget protocol_section "descriptionModule" (.obj [])
  let startStruct ← jget status "startDateStruct" (.obj [])
  let start_date ← jget startStruct "date" .null
  let completionStruct ← jget status "completionDateStruct" (.obj [])
  let completion_date ← jget completionStruct "date" .null
  let primaryStruct ← jget status "primaryCompletionDateStruct" (.obj [])
  let primary_completion_date ← jget primaryStruct "date" .null
  let enrollment_info ← jget design "enrollmentInfo" (.obj [])
  let enrollment ← jget enrollment_info "count" .null
  let enrollment_type ← jget enrollment_info "type" .null
  let nct_id ← jget identification "nctId" .null
  let acronym ← jget identification "acronym" .null
  let title ← jget identification "briefTitle" .null
  let brief_summary ← jget description "briefSummary" .null
  let overall_status ← jget status "overallStatus" .null
  let phase ← parse_phase (← jget design "phases" .null)
  let study_type ← jget design "studyType" .null
  return {
    nct_id := nct_id
    acronym := acronym
    title := title
    brief_summary := brief_summary
    status := overall_status
    phase := phase
    study_type := study_type
    start_date := parse_date_j start_date
    completion_date := parse_date_j completion_date
    primary_completion_date := parse_date_j primary_completion_date
    enrollment := if truthy enrollment then enrollment else .null
    enrollment_type := enrollment_type
  }

/-- The natural-identifier extraction performed by `transform_raw_data`
(line 243): `study.get("protocolSection", {}).get("identificationModule",
{}).get("nctId")`; raises when an intermediate value is not a
dictionary. -/
def extract_nct_id (study : Json) : Except String Json := do
  let p ← jget study "protocolSection" (.obj [])
  let i ← jget p "identificationModule" (.obj [])
  jget i "nctId" .null

/-- One line of the raw log, after `json.loads`: `none` stands for a
line whose JSON decoding raised, `some j` for a line decoding to `j`. -/
abbrev RawLine := Option Json

/-- The Study pass (`transform_raw_data`, src/etl/transform.py lines
223-273), restricted to its observable output, the `studies_raw` list:
per line, a decode failure is skipped; a falsy or unextractable natural
identifier is skipped; an exception while transforming is skipped; an
accepted line contributes its study record paired with the natural
identifier stored under the temporary `"_nct_id"` key. -/
def transform_raw_data : List RawLine → List (StudyRecord × Json)
  | [] => []
  | none :: rest => transform_raw_data rest
  | some study :: rest =>
    match extract_nct_id study with
    | .error _ => transform_raw_data rest
    | .ok nct_id =>
      if truthy nct_id then
        match transform_study study with
        | .ok rec => (rec, nct_id) :: transform_raw_data rest
        | .error _ => transform_raw_data rest
      else
        transform_raw_data rest

/-- A raw-log line with no extractable (truthy) natural identifier:
decode failure, an extraction exception, or a missing/falsy `nctId`. -/
def lacksNaturalId : RawLine → Bool
  | none => true
  | some study =>
    match extract_nct_id study with
    | .error _ => true
    | .ok nct_id => !truthy nct_id

/-- A raw-log line is benign for the Study pass when, if it decodes
and carries a truthy natural identifier, its field extraction succeeds
(no exception inside `transform_study`). -/
def studyLineOk : RawLine → Bool
  | none => true
  | some study =>
    match extract_nct_id study with
    | .error _ => true
    | .ok nct_id => !truthy nct_id || (transform_study study).toBool

/-! ## Paginated API client (src/data/api_client.py)

The upstream is modelled as the finite sequence of page responses it
would serve to the client's successive requests: each response carries
a list of study documents (`response.get("studies", [])`) and the
optional continuation token (`response.get("nextPageToken")`). Where
the model's response list is exhausted the upstream is taken to serve a
page with zero records. Documents are an arbitrary type, since the
client never inspects them. -/

/-- One page response of the upstream studies endpoint. -/
structure Page (α : Type) where
  studies : List α
  nextPageToken : Option String

/-- Python truthiness of an optional token string (`if page_token:` /
`params.get("pageToken")` as a condition): absent and empty are falsy. -/
def tokenTruthy : Option String → Bool
  | none => false
  | some s => s != ""

/-- The pagination loop of `fetch_all_studies` (lines 220-254), with
`remaining = max_records - total_fetched`: stop when the cap is
reached; stop on a page with zero records; yield the page's documents
up to the cap; continue only on a truthy continuation token. -/
def fetchLoop {α : Type} : List (Page α) → Nat → List α
  | _, 0 => []
  | [], _ => []
  | p :: rest, remaining =>
    if p.studies.isEmpty then []
    else if remaining ≤ p.studies.length then p.studies.take remaining
    else if tokenTruthy p.nextPageToken then
      p.studies ++ fetchLoop rest (remaining - p.studies.length)
    else
      p.studies

/-- Python `a or b` on the optional record cap
(`max_records = max_records or settings.api_max_records`): `None` and
`0` both select the configured default. -/
def pyOrNat : Option Nat → Nat → Nat
  | none, d => d
  | some n, d => if n == 0 then d else n

/-- `fetch_all_studies(max_records)` (lines 203-256): resolve the cap
against the settings default, then run the pagination loop over the
upstream's responses. -/
def fetch_all_studies {α : Type} (settingsMaxRecords : Nat)
    (maxRecords : Option Nat) (pages : List (Page α)) : List α :=
  fetchLoop pages (pyOrNat maxRecords settingsMaxRecords)

/-- The documents the upstream would supply before its own stopping
point (an empty page or a page without a truthy continuation token):
what an uncapped client would consume. -/
def availableStudies {α : Type} : List (Page α) → List α
  | [] => []
  | p :: rest =>
    if p.studies.isEmpty then []
    else if tokenTruthy p.nextPageToken then
      p.studies ++ availableStudies rest
    else
      p.studies

/-- Query parameters of one page request (`pageSize` always present,
`pageToken` present only when a truthy token is being continued). -/
structure ReqParams where
  pageSize : Nat
  pageToken : Option String

/-- An HTTP response the server returned: status code, JSON body, and
whether the body is an HTML challenge page (the content-type /
body-preview distinction the 403 handler logs). -/
structure HttpResponse where
  status : Nat
  body : Json
  htmlBody : Bool

/-- One attempt at the request either yields an HTTP response or fails
at the network level (connection error / timeout), which Python
surfaces as a `RequestException` distinct from `HTTPError`. -/
inductive AttemptResult where
  | response (r : HttpResponse)
  | connectionFailure

/-- The classified failures `_request` can propagate, one constructor
per distinguished log-and-raise branch of lines 103-172: a WAF block
(403), a stale/expired pagination token (400 with a token present), a
transiently retryable upstream failure (429/500/502/503/504), any
other HTTP error, and a network-level failure. -/
inductive RequestFailure where
  | wafBlocked (htmlChallenge : Bool)
  | staleToken
  | retryable (status : Nat)
  | httpError (status : Nat)
  | network
deriving Repr, DecidableEq

/-- The error classification of `_request` (lines 103-168) for a
non-2xx response: the branches in source order. -/
def classify_http_error (params : ReqParams) (r : HttpResponse) : RequestFailure :=
  if r.status == 403 then .wafBlocked r.htmlBody
  else if r.status == 400 && tokenTruthy params.pageToken then .staleToken
  else if r.status == 429 || r.status == 500 || r.status == 502
      || r.status == 503 || r.status == 504 then .retryable r.status
  else .httpError r.status

/-- Handling of a single request attempt: `raise_for_status` raises
exactly on a client or server error status (400-599), which `_request`
then classifies; a network failure propagates as its own kind. -/
def handleAttempt (params : ReqParams) : AttemptResult → Except RequestFailure Json
  | .connectionFailure => .error .network
  | .response r =>
    if 400 ≤ r.status ∧ r.status < 600 then .error (classify_http_error params r)
    else .ok r.body

/-- `_request` (lines 79-172) issues the request once and classifies
the outcome; it contains no retry loop, so only the first element of
the attempt sequence the server would answer with is ever consumed. -/
def _request (params : ReqParams) (attempts : List AttemptResult) :
    Except RequestFailure Json :=
  match attempts with
  | [] => .error .network
  | a :: _ => handleAttempt params a

/-! ## Relational load (src/etl/load.py)

The SQLite store is threaded explicitly. A call works on a connection
whose view (`pending`) starts from the committed table and sees its own
uncommitted inserts; the single `conn.commit()` at the end of a call
publishes the pending state, and an exception escaping the `with`
block closes the connection without committing, leaving the committed
state untouched.

Modelled from the spec: the studies table's schema (sql/schema, not
part of the sources here) declares the natural identifier unique
("studies (surrogate id, natural id unique, ...)", spec section 6), so
an `INSERT` of a row whose `nct_id` is already present in the
connection's view fails with an integrity error; the surrogate
identifier is auto-assigned by the store as one more than the largest
identifier present. -/

/-- One persisted studies-table row: auto-assigned surrogate id, the
natural identifier column, and the remaining column values. -/
structure StudyRow where
  study_id : Nat
  nct_id : Json
  payload : Dict
deriving Repr

/-- The exceptions a load call can propagate: `KeyError` from
`study.pop("_nct_id")`, the uniqueness violation on `INSERT`, and the
`TypeError` of subscripting a `fetchone()` that returned no row. -/
inductive LoadErr where
  | keyError
  | integrityError
  | fetchNone
deriving Repr, DecidableEq

/-- The surrogate identifier the store assigns to the next inserted
row. -/
def nextStudyId (pending : List StudyRow) : Nat :=
  (pending.map (·.study_id)).foldr max 0 + 1

/-- Python dictionary assignment `mapping[nct_id] = study_id` on the
returned natural-to-surrogate mapping. -/
def mapSet (m : List (Json × Nat)) (k : Json) (v : Nat) : List (Json × Nat) :=
  if (m.find? (fun p => jsonBeq p.1 k)).isSome then
    m.map (fun p => if jsonBeq p.1 k then (k, v) else p)
  else
    m ++ [(k, v)]

/-- `study.pop("_nct_id")` as used throughout `load_studies`. -/
def popNct (d : Dict) : Option (Json × Dict) :=
  dictPop d "_nct_id"

/-- The in-place state of one input dictionary during `load_studies`:
either finalised, or sitting in the `studies_to_insert` buffer awaiting
the next batch flush. -/
inductive Entry where
  | done (d : Dict)
  | buffered (d : Dict)
deriving Repr

/-- The current content of the dictionary object an entry tracks. -/
def entryDict : Entry → Dict
  | .done d => d
  | .buffered d => d

/-- The mutable state of one `load_studies` call: the input
dictionaries in their present (possibly mutated) content, the
connection's view of the studies table, the mapping built so far, and
the size of the insert buffer since the last flush. -/
structure LoadSt where
  entries : List Entry
  pending : List StudyRow
  mapping : List (Json × Nat)
  bufCount : Nat

/-- First loop of `_insert_studies_batch` (lines 98-107): each buffered
dictionary is popped, inserted (columns are its remaining keys), and
has its `"_nct_id"` key restored; the insert fails when the natural
identifier is already present in the connection's view. -/
def insertLoopB : List Entry → List StudyRow → Except LoadErr (List Entry × List StudyRow)
  | [], pending => .ok ([], pending)
  | .done d :: rest, pending =>
    (insertLoopB rest pending).map (fun r => (.done d :: r.1, r.2))
  | .buffered d :: rest, pending =>
    match popNct d with
    | none => .error .keyError
    | some (nct, d1) =>
      if (pending.find? (fun r => jsonBeq r.nct_id nct)).isSome then
        .error .integrityError
      else
        (insertLoopB rest (pending ++ [⟨nextStudyId pending, nct, d1⟩])).map
          (fun r => (.buffered (dictSet d1 "_nct_id" nct) :: r.1, r.2))

/-- Second loop of `_insert_studies_batch` (lines 110-118): each
buffered dictionary is popped again and the `SELECT study_id FROM
studies WHERE nct_id = ...` result (`fetchone()`, the first matching
row of the connection's view) is recorded in the mapping. -/
def selectLoopB : List Entry → List StudyRow → List (Json × Nat) →
    Except LoadErr (List Entry × List (Json × Nat))
  | [], _, mapping => .ok ([], mapping)
  | .done d :: rest, pending, mapping =>
    (selectLoopB rest pending mapping).map (fun r => (.done d :: r.1, r.2))
  | .buffered d :: rest, pending, mapping =>
    match popNct d with
    | none => .error .keyError
    | some (nct, d1) =>
      match pending.find? (fun r => jsonBeq r.nct_id nct) with
      | none => .error .fetchNone
      | some row =>
        (selectLoopB rest pending (mapSet mapping nct row.study_id)).map
          (fun r => (.done d1 :: r.1, r.2))

/-- `_insert_studies_batch` (lines 80-118) over the whole entry list:
the buffered entries are exactly the `studies_to_insert` batch, in
order; finalised entries are untouched. Empties the buffer. -/
def flushBatch (st : LoadSt) : Except LoadErr LoadSt :=
  match insertLoopB st.entries st.pending with
  | .error e => .error e
  | .ok r1 =>
    match selectLoopB r1.1 r1.2 st.mapping with
    | .error e => .error e
    | .ok r2 => .ok ⟨r2.1, r1.2, r2.2, 0⟩

/-- The per-record loop of `load_studies` (lines 45-68): pop the
natural identifier, reuse the surrogate of an existing row, otherwise
buffer for insertion, flushing each time the buffer reaches 100. -/
def loadLoop : List Dict → LoadSt → Except LoadErr LoadSt
  | [], st => .ok st
  | d :: rest, st =>
    match popNct d with
    | none => .error .keyError
    | some (nct, d1) =>
      match st.pending.find? (fun r => jsonBeq r.nct_id nct) with
      | some row =>
        loadLoop rest ⟨st.entries ++ [.done d1], st.pending,
          mapSet st.mapping nct row.study_id, st.bufCount⟩
      | none =>
        if 100 ≤ st.bufCount + 1 then
          match flushBatch ⟨st.entries ++ [.buffered (dictSet d1 "_nct_id" nct)],
              st.pending, st.mapping, st.bufCount + 1⟩ with
          | .error e => .error e
          | .ok st'' => loadLoop rest st''
        else
          loadLoop rest ⟨st.entries ++ [.buffered (dictSet d1 "_nct_id" nct)],
            st.pending, st.mapping, st.bufCount + 1⟩

/-- `load_studies(studies_data, engine)` (lines 26-77): run the
per-record loop from the committed store, flush the remaining buffer
(`_insert_studies_batch` is a no-op on an empty batch), then commit.
Returns the natural-to-surrogate mapping, the committed studies table,
and the final content of the input dictionaries; an error is an
exception escaping the call, in which case nothing was committed. -/
def load_studies (studies_data : List Dict) (committed : List StudyRow) :
    Except LoadErr (List (Json × Nat) × List StudyRow × List Dict) :=
  match loadLoop studies_data ⟨[], committed, [], 0⟩ with
  | .error e => .error e
  | .ok st =>
    match flushBatch st with
    | .error e => .error e
    | .ok st' => .ok (st'.mapping, st'.pending, st'.entries.map entryDict)

/-! ### Dependent-table loads (lines 121-214)

`load_conditions`, `load_locations` and `load_sponsors` are textually
identical up to the table name: unconditional row-by-row `INSERT`s on
one connection followed by a single `conn.commit()`. A failing insert
is abstracted as a predicate on the row (whatever the store might
reject); the exception propagates out of the `with` block, so the
connection closes uncommitted. Each function returns the committed
table after the call together with the call's outcome. -/

/-- The insert loop of a dependent-table load: extend the connection's
pending view row by row, failing on the first rejected row. -/
def insertRows (rows : List Dict) (failP : Dict → Bool) (pending : List Dict) :
    Except Unit (List Dict) :=
  match rows with
  | [] => .ok pending
  | r :: rest =>
    if failP r then .error () else insertRows rest failP (pending ++ [r])

/-- `load_conditions(conditions_data, engine)`: empty input returns 0
without touching the store; otherwise all rows are inserted on one
connection and committed together, and the count of inserted rows is
returned; on a failed insert the commit never runs. -/
def load_conditions (rows : List Dict) (failP : Dict → Bool) (table : List Dict) :
    List Dict × Except Unit Nat :=
  if rows.isEmpty then (table, .ok 0)
  else
    match insertRows rows failP table with
    | .error e => (table, .error e)
    | .ok table' => (table', .ok rows.length)

/-- `load_locations(locations_data, engine)`: same shape as
`load_conditions`, targeting the locations table. -/
def load_locations (rows : List Dict) (failP : Dict → Bool) (table : List Dict) :
    List Dict × Except Unit Nat :=
  if rows.isEmpty then (table, .ok 0)
  else
    match insertRows rows failP table with
    | .error e => (table, .error e)
    | .ok table' => (table', .ok rows.length)

/-- `load_sponsors(sponsors_data, engine)`: same shape as
`load_conditions`, targeting the sponsors table. -/
def load_sponsors (rows : List Dict) (failP : Dict → Bool) (table : List Dict) :
    List Dict × Except Unit Nat :=
  if rows.isEmpty then (table, .ok 0)
  else
    match insertRows rows failP table with
    | .error e => (table, .error e)
    | .ok table' => (table', .ok rows.length)

/-! ## Specification-side helper definitions used by the theorems -/

/-- Whether a JSON value is a dictionary. -/
def isObj : Json → Bool
  | .obj _ => true
  | _ => false

/-- Total lookup: the value stored under `k`, or `default` when the key
is absent or the value is not a dictionary (the non-raising shadow of
`jget`, used to phrase hypotheses about document shape). -/
def jgetD (j : Json) (k : String) (default : Json) : Json :=
  match j with
  | .obj fs =>
    match (fs.find? (fun p => p.1 == k)).map (·.2) with
    | some v => v
    | none => default
  | _ => default

/-- A benign shape for the `phases` value: absent/null or a list of
strings (the shapes the registry actually serves). -/
def phasesShapeOk : Json → Bool
  | .null => true
  | .arr xs => xs.all (fun x => match x with | .str _ => true | _ => false)
  | _ => false

/-- A raw document is well-shaped when each nested module or date
struct that is present is itself a dictionary, and the phase list, when
present, is null or a list of strings. Missing keys are allowed
everywhere; this is exactly the shape on which every `.get` in
`transform_study` has a dictionary receiver. -/
def wellShaped (doc : Json) : Bool :=
  isObj doc &&
  (let P := jgetD doc "protocolSection" (.obj [])
   isObj P &&
   isObj (jgetD P "identificationModule" (.obj [])) &&
   (let S := jgetD P "statusModule" (.obj [])
    isObj S && isObj (jgetD S "startDateStruct" (.obj []))
      && isObj (jgetD S "completionDateStruct" (.obj []))
      && isObj (jgetD S "primaryCompletionDateStruct" (.obj []))) &&
   (let D := jgetD P "designModule" (.obj [])
    isObj D && isObj (jgetD D "enrollmentInfo" (.obj []))
      && phasesShapeOk (jgetD D "phases" .null)) &&
   isObj (jgetD P "descriptionModule" (.obj [])))

/-- The study record of a document with every field missing: every
output value absent. -/
def blankStudyRecord : StudyRecord :=
  ⟨.null, .null, .null, .null, .null, none, .null, none, none, none, .null, .null⟩

/-- The nested path `designModule.enrollmentInfo.count` as
`transform_study` reads it. -/
def enrollment_count_path (doc : Json) : Except String Json := do
  let p ← jget doc "protocolSection" (.obj [])
  let d ← jget p "designModule" (.obj [])
  let ei ← jget d "enrollmentInfo" (.obj [])
  jget ei "count" .null

/-- The sample raw document of the repository's test suite
(tests/test_load.py), used as a concrete well-shaped witness input. -/
def sampleDoc : Json :=
  .obj [("protocolSection", .obj
    [("identificationModule", .obj
       [("nctId", .str "NCT00000001"), ("briefTitle", .str "Test Study 1")]),
     ("statusModule", .obj
       [("overallStatus", .str "COMPLETED"),
        ("startDateStruct", .obj [("date", .str "2020-01")])]),
     ("designModule", .obj
       [("phases", .arr [.str "PHASE2"]),
        ("studyType", .str "INTERVENTIONAL"),
        ("enrollmentInfo", .obj [("count", .num 100), ("type", .str "Actual")])]),
     ("conditionsModule", .obj
       [("conditions", .arr [.str "Diabetes", .str "Obesity"])]),
     ("contactsLocationsModule", .obj
       [("locations", .arr [.obj
          [("facility", .str "Test Hospital"), ("city", .str "New York"),
           ("country", .str "United States")]])]),
     ("sponsorCollaboratorsModule", .obj
       [("leadSponsor", .obj
          [("name", .str "Test Pharma"), ("class", .str "INDUSTRY")])]),
     ("descriptionModule", .obj [("briefSummary", .str "Test summary")])])]

/-- A raw document whose natural identifier extracts fine but whose
`statusModule` is JSON `null`, so `transform_study` raises on
`status.get("startDateStruct", {})`'s receiver being `None`. -/
def statusNullDoc : Json :=
  .obj [("protocolSection", .obj
    [("identificationModule", .obj [("nctId", .str "NCT00000001")]),
     ("statusModule", .null)])]

/-- A raw document whose design module carries an enrollment count of
`0`, a perfectly well-formed non-negative integer. -/
def zeroCountDoc : Json :=
  .obj [("protocolSection", .obj
    [("designModule", .obj [("enrollmentInfo", .obj [("count", .num 0)])])])]

/-- The content a tracked input dictionary is guaranteed to end with
once `load_studies` completes: finalised entries as they stand,
buffered entries after the flush that pops their `"_nct_id"` key. -/
def entryFinal : Entry → Dict
  | .done d => d
  | .buffered d => dictErase d "_nct_id"

/-- Whether an entry has been finalised. -/
def entryIsDone : Entry → Bool
  | .done _ => true
  | .buffered _ => false

example :
    load_studies
      [[("_nct_id", Json.str "NCT00000001"), ("title", Json.str "A")],
       [("_nct_id", Json.str "NCT00000001"), ("title", Json.str "B")]] []
    = .error .integrityError := rfl

example :
    load_studies [[("_nct_id", Json.str "NCT1"), ("title", Json.str "T")]] []
    = .ok ([(Json.str "NCT1", 1)],
           [⟨1, Json.str "NCT1", [("title", Json.str "T")]⟩],
           [[("title", Json.str "T")]]) := rfl

example :
    load_studies [[("title", Json.str "T")]] [] = .error .keyError := rfl

example :
    transform_study (.obj [("protocolSection", .null)]) = .error "AttributeError" := rfl

example :
    transform_raw_data
      [some (.obj [("protocolSection",
        .obj [("identificationModule", .obj [("nctId", .str "NCT00000001")]),
              ("statusModule", .null)])])] = [] := rfl

example :
    lacksNaturalId
      (some (.obj [("protocolSection",
        .obj [("identificationModule", .obj [("nctId", .str "NCT00000001")]),
              ("statusModule", .null)])])) = false := rfl

example :
    (transform_study (.obj [("protocolSection",
        .obj [("designModule", .obj [("enrollmentInfo", .obj [("count", .num 0)])])])])).map
      (·.enrollment) = .ok .null := rfl

example :
    fetch_all_studies 3 (some 0) [⟨[10, 20], none⟩] = ([10, 20] : List Nat) := rfl

example : isCalendarDateString "2020-13-01" = false := rfl
example : isCalendarDateString "2020-12-01" = true := rfl

example : parse_date (some "2023-06") = some "2023-06-01" := rfl
example : parse_date (some "2023-06-15") = some "2023-06-15" := rfl
example : parse_date (some "2023") = some "2023-01-01" := rfl
example : parse_date none = none := rfl
example : parse_date (some "") = none := rfl
example : parse_date (some "invalid-date") = none := rfl
example : parse_date (some "2023-13-01") = none := rfl
example : parse_date (some "2020-13") = some "2020-13-01" := rfl
example : parse_date (some "abcd-ef") = some "abcd-ef-01" := rfl
example : parse_phase (.arr [.str "PHASE1", .str "PHASE2"]) = .ok (some "PHASE1, PHASE2") := rfl
example : parse_phase .null = .ok none := rfl
example : parse_phase (.arr []) = .ok none := rfl

/-! ## Supporting lemmas -/

/-- The pagination loop yields the `remaining`-prefix of what the
upstream would supply before its own stopping point. -/
theorem fetchLoop_eq_take {α : Type} (pages : List (Page α)) :
    ∀ remaining : Nat, fetchLoop pages remaining = (availableStudies pages).take remaining := by
  induction pages with
  | nil =>
    intro remaining
    cases remaining <;> simp [fetchLoop, availableStudies]
  | cons p rest ih =>
    intro remaining
    cases remaining with
    | zero => simp [fetchLoop]
    | succ r =>
      by_cases hempty : p.studies.isEmpty
      · simp [fetchLoop, availableStudies, hempty]
      · by_cases hle : r + 1 ≤ p.studies.length
        · by_cases htok : tokenTruthy p.nextPageToken = true
          · simp [fetchLoop, availableStudies, hempty, hle, htok,
              List.take_append_of_le_length hle]
          · simp only [Bool.not_eq_true] at htok
            simp [fetchLoop, availableStudies, hempty, hle, htok,
              List.take_of_length_le]
        · push_neg at hle
          have hlen : p.studies.length ≤ r + 1 := Nat.le_of_lt hle
          by_cases htok : tokenTruthy p.nextPageToken = true
          · simp [fetchLoop, availableStudies, hempty, htok, Nat.not_le.mpr hle,
              List.take_append_eq_append_take, List.take_of_length_le hlen, ih]
          · simp only [Bool.not_eq_true] at htok
            simp [fetchLoop, availableStudies, hempty, htok, Nat.not_le.mpr hle,
              List.take_of_length_le hlen]

/-- Unfolding `dictGet?` one entry at a time. -/
theorem dictGet?_cons (p : String × Json) (rest : Dict) (k : String) :
    dictGet? (p :: rest) k = if p.1 == k then some p.2 else dictGet? rest k := by
  cases h : (p.1 == k) <;> simp [dictGet?, List.find?_cons, h]

/-- Unfolding `dictErase` one entry at a time. -/
theorem dictErase_cons (p : String × Json) (rest : Dict) (k : String) :
    dictErase (p :: rest) k = if p.1 == k then dictErase rest k else p :: dictErase rest k := by
  cases h : (p.1 == k) <;> simp [dictErase, List.filter_cons, h]

/-- Looking a key up after removing it finds nothing. -/
theorem dictGet?_erase (d : Dict) (k : String) : dictGet? (dictErase d k) k = none := by
  induction d with
  | nil => rfl
  | cons p rest ih =>
    rw [dictErase_cons]
    by_cases h : (p.1 == k) = true
    · rw [if_pos h]; exact ih
    · rw [if_neg h, dictGet?_cons, if_neg h]; exact ih

/-- Removing an absent key changes nothing. -/
theorem erase_of_get?_none {d : Dict} {k : String} (h : dictGet? d k = none) :
    dictErase d k = d := by
  induction d with
  | nil => rfl
  | cons p rest ih =>
    rw [dictGet?_cons] at h
    by_cases hp : (p.1 == k) = true
    · rw [if_pos hp] at h; cases h
    · rw [if_neg hp] at h
      rw [dictErase_cons, if_neg hp, ih h]

/-- Assigning an absent key appends it at the end. -/
theorem dictSet_of_get?_none {d : Dict} {k : String} (h : dictGet? d k = none) (v : Json) :
    dictSet d k v = d ++ [(k, v)] := by
  have hf : d.find? (fun p => p.1 == k) = none := by
    unfold dictGet? at h
    exact Option.map_eq_none'.mp h
  simp [dictSet, hf]

/-- Erasing a key from an appended singleton with that key drops the
singleton. -/
theorem erase_append_single (d : Dict) (k : String) (v : Json) :
    dictErase (d ++ [(k, v)]) k = dictErase d k := by
  show (d ++ [(k, v)]).filter _ = _
  rw [List.filter_append]
  simp [dictErase]

/-- Removing a key that was just assigned over a key-free dictionary
recovers that dictionary. -/
theorem erase_set_self {d : Dict} {k : String} (h : dictGet? d k = none) (v : Json) :
    dictErase (dictSet d k v) k = d := by
  rw [dictSet_of_get?_none h v, erase_append_single, erase_of_get?_none h]

/-- What a successful `pop` tells about its input and output. -/
theorem dictPop_some {d d1 : Dict} {k : String} {v : Json}
    (h : dictPop d k = some (v, d1)) :
    dictGet? d k = some v ∧ d1 = dictErase d k := by
  unfold dictPop at h
  cases hg : dictGet? d k with
  | none => rw [hg] at h; cases h
  | some w => rw [hg] at h; cases h; exact ⟨rfl, rfl⟩

/-- Popping a key from a dictionary it was erased from raises. -/
theorem popNct_erase_none (d : Dict) : popNct (dictErase d "_nct_id") = none := by
  unfold popNct dictPop
  rw [dictGet?_erase]

/-- Popping the key that `dictSet` just appended to a key-free
dictionary yields the assigned value and the original dictionary. -/
theorem popNct_set {d : Dict} (h : dictGet? d "_nct_id" = none) (v : Json) :
    popNct (dictSet d "_nct_id" v) = some (v, d) := by
  unfold popNct dictPop
  rw [dictSet_of_get?_none h v]
  have hf : d.find? (fun p => p.1 == "_nct_id") = none := by
    unfold dictGet? at h
    exact Option.map_eq_none'.mp h
  have hg : dictGet? (d ++ [("_nct_id", v)]) "_nct_id" = some v := by
    simp [dictGet?, List.find?_append, hf]
  rw [hg, erase_append_single, erase_of_get?_none h]

/-- The first `_insert_studies_batch` loop leaves every tracked
dictionary's eventual content unchanged: finalised entries are not
touched, and a buffered entry is popped and restored. -/
theorem insertLoopB_finals :
    ∀ (es : List Entry) (pending : List StudyRow) (out : List Entry × List StudyRow),
      insertLoopB es pending = .ok out → out.1.map entryFinal = es.map entryFinal := by
  intro es
  induction es with
  | nil =>
    intro pending out h
    unfold insertLoopB at h
    cases h
    rfl
  | cons e rest ih =>
    intro pending out h
    cases e with
    | done d =>
      unfold insertLoopB at h
      cases hr : insertLoopB rest pending with
      | error err => rw [hr] at h; cases h
      | ok r =>
        rw [hr] at h
        cases h
        simp only [List.map_cons]
        rw [ih pending r hr]
    | buffered d =>
      unfold insertLoopB at h
      split at h
      · cases h
      · rename_i nct d1 hp
        obtain ⟨-, hd1⟩ := dictPop_some hp
        split at h
        · cases h
        · cases hr : insertLoopB rest (pending ++ [⟨nextStudyId pending, nct, d1⟩]) with
          | error err => rw [hr] at h; cases h
          | ok r =>
            rw [hr] at h
            cases h
            simp only [List.map_cons]
            rw [ih _ r hr]
            have hfree : dictGet? d1 "_nct_id" = none := by
              rw [hd1]; exact dictGet?_erase d "_nct_id"
            show dictErase (dictSet d1 "_nct_id" nct) "_nct_id" :: _ = dictErase d "_nct_id" :: _
            rw [erase_set_self hfree, hd1]

/-- The second `_insert_studies_batch` loop finalises every buffered
entry at its eventual content and leaves finalised entries alone; on
success every entry is finalised. -/
theorem selectLoopB_finals :
    ∀ (es : List Entry) (pending : List StudyRow) (m : List (Json × Nat))
      (out : List Entry × List (Json × Nat)),
      selectLoopB es pending m = .ok out →
      out.1.map entryFinal = es.map entryFinal ∧ out.1.all entryIsDone = true := by
  intro es
  induction es with
  | nil =>
    intro pending m out h
    unfold selectLoopB at h
    cases h
    exact ⟨rfl, rfl⟩
  | cons e rest ih =>
    intro pending m out h
    cases e with
    | done d =>
      unfold selectLoopB at h
      cases hr : selectLoopB rest pending m with
      | error err => rw [hr] at h; cases h
      | ok r =>
        rw [hr] at h
        cases h
        obtain ⟨h1, h2⟩ := ih pending m r hr
        refine ⟨?_, ?_⟩
        · simp only [List.map_cons]; rw [h1]
        · simpa [entryIsDone] using h2
    | buffered d =>
      unfold selectLoopB at h
      split at h
      · cases h
      · rename_i nct d1 hp
        obtain ⟨-, hd1⟩ := dictPop_some hp
        split at h
        · cases h
        · rename_i row hf
          cases hr : selectLoopB rest pending (mapSet m nct row.study_id) with
          | error err => rw [hr] at h; cases h
          | ok r =>
            rw [hr] at h
            cases h
            obtain ⟨h1, h2⟩ := ih pending _ r hr
            refine ⟨?_, ?_⟩
            · simp only [List.map_cons]
              rw [h1]
              show d1 :: _ = dictErase d "_nct_id" :: _
              rw [hd1]
            · simpa [entryIsDone] using h2

/-- `_insert_studies_batch` leaves every tracked dictionary's eventual
content unchanged and finalises every entry. -/
theorem flushBatch_finals {st st' : LoadSt} (h : flushBatch st = .ok st') :
    st'.entries.map entryFinal = st.entries.map entryFinal
      ∧ st'.entries.all entryIsDone = true := by
  unfold flushBatch at h
  split at h
  · cases h
  · rename_i r1 h1
    split at h
    · cases h
    · rename_i r2 h2
      cases h
      obtain ⟨hs1, hs2⟩ := selectLoopB_finals r1.1 r1.2 st.mapping r2 h2
      exact ⟨hs1.trans (insertLoopB_finals st.entries st.pending r1 h1), hs2⟩

/-- The per-record loop appends, to the tracked dictionaries, each
processed input at its eventual content: the input with its
`"_nct_id"` key removed. -/
theorem loadLoop_finals :
    ∀ (ds : List Dict) (st st' : LoadSt), loadLoop ds st = .ok st' →
      st'.entries.map entryFinal
        = st.entries.map entryFinal ++ ds.map (fun d => dictErase d "_nct_id") := by
  intro ds
  induction ds with
  | nil =>
    intro st st' h
    unfold loadLoop at h
    cases h
    simp
  | cons d rest ih =>
    intro st st' h
    unfold loadLoop at h
    split at h
    · cases h
    · rename_i nct d1 hp
      obtain ⟨-, hd1⟩ := dictPop_some hp
      have hbufEntry :
          entryFinal (.buffered (dictSet d1 "_nct_id" nct)) = dictErase d "_nct_id" := by
        have hfree : dictGet? d1 "_nct_id" = none := by
          rw [hd1]; exact dictGet?_erase d "_nct_id"
        show dictErase (dictSet d1 "_nct_id" nct) "_nct_id" = _
        rw [erase_set_self hfree, hd1]
      split at h
      · rw [ih _ _ h]
        simp [entryFinal, hd1]
      · split at h
        · split at h
          · cases h
          · rename_i st2 hfl
            rw [ih _ _ h, (flushBatch_finals hfl).1]
            simp [hbufEntry]
        · rw [ih _ _ h]
          simp [hbufEntry]

/-- Entries that are all finalised read back exactly their eventual
content. -/
theorem entryDict_eq_final_of_done :
    ∀ es : List Entry, es.all entryIsDone = true → es.map entryDict = es.map entryFinal := by
  intro es h
  induction es with
  | nil => rfl
  | cons e rest ih =>
    cases e with
    | done d =>
      simp only [List.all_cons, Bool.and_eq_true] at h
      simp only [List.map_cons]
      rw [ih h.2]
      rfl
    | buffered d => simp [entryIsDone] at h

/-- A call whose first dictionary lacks the `"_nct_id"` key dies at
once with `KeyError`. -/
theorem load_studies_keyless_head {d : Dict} (h : dictGet? d "_nct_id" = none)
    (rest : List Dict) (committed : List StudyRow) :
    load_studies (d :: rest) committed = .error .keyError := by
  have hp : popNct d = none := by
    unfold popNct dictPop
    rw [h]
  unfold load_studies loadLoop
  rw [hp]

/-- Reducing a bind on a success value. -/
theorem except_bind_ok {ε α β : Type} (a : α) (f : α → Except ε β) :
    (Except.ok (ε := ε) a >>= f) = f a := rfl

/-- Inverting a successful bind: the first stage succeeded and the
continuation succeeded on its value. -/
theorem bind_ok_inv {ε α β : Type} {ma : Except ε α} {f : α → Except ε β} {b : β}
    (h : ma >>= f = .ok b) : ∃ a, ma = .ok a ∧ f a = .ok b := by
  cases ma with
  | error e => cases h
  | ok a => exact ⟨a, rfl, h⟩

/-- On a dictionary receiver, `jget` returns its total shadow. -/
theorem jget_of_isObj {j : Json} (h : isObj j = true) (k : String) (default : Json) :
    jget j k default = .ok (jgetD j k default) := by
  cases j with
  | obj fs =>
    cases hfind : fs.find? (fun p => p.1 == k) with
    | none => simp [jget, jgetD, hfind]
    | some p => simp [jget, jgetD, hfind]
  | null => simp [isObj] at h
  | bool b => simp [isObj] at h
  | num n => simp [isObj] at h
  | str s => simp [isObj] at h
  | arr xs => simp [isObj] at h

/-- `str.join` succeeds on a list of strings. -/
theorem mapStrings_of_all_str {xs : List Json}
    (h : xs.all (fun x => match x with | .str _ => true | _ => false) = true) :
    ∃ ss, parse_phase.mapStrings xs = some ss := by
  induction xs with
  | nil => exact ⟨[], rfl⟩
  | cons x rest ih =>
    simp only [List.all_cons, Bool.and_eq_true] at h
    obtain ⟨hx, hrest⟩ := h
    obtain ⟨ss, hss⟩ := ih hrest
    cases x with
    | str s => exact ⟨s :: ss, by simp [parse_phase.mapStrings, hss]⟩
    | null => cases hx
    | bool b => cases hx
    | num n => cases hx
    | arr ys => cases hx
    | obj fs => cases hx

/-- `parse_phase` cannot raise on a null-or-string-list phase value. -/
theorem parse_phase_ok_of_shape {j : Json} (h : phasesShapeOk j = true) :
    ∃ o, parse_phase j = .ok o := by
  cases j with
  | arr xs =>
    by_cases ht : truthy (.arr xs) = true
    · obtain ⟨ss, hss⟩ := mapStrings_of_all_str (by simpa [phasesShapeOk] using h)
      exact ⟨some (parse_phase.joinComma ss), by simp [parse_phase, ht, hss]⟩
    · refine ⟨none, ?_⟩
      unfold parse_phase
      rw [Bool.not_eq_true] at ht
      rw [ht]
      rfl
  | null => exact ⟨none, rfl⟩
  | bool b => simp [phasesShapeOk] at h
  | num n => simp [phasesShapeOk] at h
  | str s => simp [phasesShapeOk] at h
  | obj fs => simp [phasesShapeOk] at h

/-! ## Claim theorems -/

/-- C10: `load_studies` mutates its input in place — after a successful
call every input dictionary has had its `"_nct_id"` key removed with
all other keys and values unchanged, and the resulting list fed to a
second `load_studies` call fails on the missing key. -/
theorem C10_load_studies_mutates_input
    (studies : List Dict) (committed : List StudyRow)
    (m : List (Json × Nat)) (t : List StudyRow) (final : List Dict)
    (h : load_studies studies committed = .ok (m, t, final)) :
    final = studies.map (fun d => dictErase d "_nct_id")
      ∧ (studies ≠ [] →
          ∀ committed', load_studies final committed' = .error .keyError) := by
  have hfinal : final = studies.map (fun d => dictErase d "_nct_id") := by
    unfold load_studies at h
    split at h
    · cases h
    · rename_i st hld
      split at h
      · cases h
      · rename_i st' hfl
        cases h
        obtain ⟨hfin, hdone⟩ := flushBatch_finals hfl
        have hload := loadLoop_finals studies _ st hld
        rw [entryDict_eq_final_of_done st'.entries hdone, hfin, hload]
        simp
  refine ⟨hfinal, ?_⟩
  intro hne committed'
  cases studies with
  | nil => exact absurd rfl hne
  | cons d ds =>
    rw [hfinal]
    exact load_studies_keyless_head (dictGet?_erase d "_nct_id") _ committed'

/-- C10 witness: a one-study call at a concrete input, the key removed
afterwards, and the second call failing with `KeyError`. -/
theorem C10_load_studies_mutates_input_witness :
    ([[("title", Json.str "T")]] : List Dict)
        = ([[("_nct_id", Json.str "NCT1"), ("title", Json.str "T")]] : List Dict).map
            (fun d => dictErase d "_nct_id")
      ∧ load_studies [[("title", Json.str "T")]] [] = .error .keyError := by
  have h := C10_load_studies_mutates_input
    [[("_nct_id", Json.str "NCT1"), ("title", Json.str "T")]] []
    [(Json.str "NCT1", 1)]
    [⟨1, Json.str "NCT1", [("title", Json.str "T")]⟩]
    [[("title", Json.str "T")]] rfl
  exact ⟨h.1, h.2 (by simp) []⟩

/-- C1: the claim predicts that presenting the same natural identifier
twice in one batch resolves both occurrences to one surrogate with
exactly one new row; in fact, because new rows sit in an unflushed
buffer that the per-record existence check cannot see, the second
occurrence is inserted as well and (under the schema's unique natural
identifier) the whole call aborts with an integrity error — while a
lone occurrence, and a rerun against a store already holding the row,
behave as claimed. -/
theorem C1_load_studies_in_batch_duplicate :
    load_studies
        [[("_nct_id", Json.str "NCT00000001"), ("title", Json.str "A")],
         [("_nct_id", Json.str "NCT00000001"), ("title", Json.str "B")]] []
      = .error .integrityError
    ∧ load_studies
        [[("_nct_id", Json.str "NCT00000001"), ("title", Json.str "A")]] []
      = .ok ([(Json.str "NCT00000001", 1)],
             [⟨1, Json.str "NCT00000001", [("title", Json.str "A")]⟩],
             [[("title", Json.str "A")]])
    ∧ load_studies
        [[("_nct_id", Json.str "NCT00000001"), ("title", Json.str "B")]]
        [⟨1, Json.str "NCT00000001", [("title", Json.str "A")]⟩]
      = .ok ([(Json.str "NCT00000001", 1)],
             [⟨1, Json.str "NCT00000001", [("title", Json.str "A")]⟩],
             [[("title", Json.str "B")]]) :=
  ⟨rfl, rfl, rfl⟩

/-- C2: the claim predicts `None` for every unparseable string, but a
7-character unparseable string with a dash at index 4 takes the
unvalidated year-month fast path and comes back with `"-01"`
appended. -/
theorem C2_parse_date_unparseable_not_none :
    parse_date (some "abcd-ef") = some "abcd-ef-01" := rfl

/-- C3: the claim predicts that every non-`None` result denotes a real
calendar date, but the month-13 input takes the unvalidated fast path
and yields a string that is not a calendar date. -/
theorem C3_parse_date_invalid_month_not_calendar :
    parse_date (some "2020-13") = some "2020-13-01"
      ∧ isCalendarDateString "2020-13-01" = false :=
  ⟨rfl, rfl⟩

/-- C4 counterexample: with `maxRecords = 0` and an upstream supplying
2 documents (more than 0) the claim predicts exactly 0 documents, but
Python's `max_records or settings.api_max_records` replaces a zero cap
with the configured default, so the client yields 2. -/
theorem C4_counterexample_zero_max_records :
    (fetch_all_studies 3 (some 0) [Page.mk [(10 : Nat), 20] none]).length = 2 := rfl

/-- C4 (amended to positive caps): for every positive `maxRecords`,
`fetch_all_studies` yields the `maxRecords`-prefix of what the upstream
supplies before a zero-record page or a missing continuation token —
so it stops at the earliest of the three conditions, and when the
supply exceeds the cap it yields exactly `maxRecords` documents. -/
theorem C4_fetch_all_studies_cap {α : Type} (settingsMax : Nat)
    (pages : List (Page α)) (m : Nat) (hm : 0 < m) :
    fetch_all_studies settingsMax (some m) pages = (availableStudies pages).take m
      ∧ (m < (availableStudies pages).length →
          (fetch_all_studies settingsMax (some m) pages).length = m) := by
  have hne : (m == 0) = false := by
    simpa using Nat.pos_iff_ne_zero.mp hm
  have h1 : fetch_all_studies settingsMax (some m) pages
      = (availableStudies pages).take m := by
    show fetchLoop pages (if (m == 0) = true then settingsMax else m)
      = (availableStudies pages).take m
    rw [hne]
    simp only [Bool.false_eq_true, if_false]
    exact fetchLoop_eq_take pages m
  refine ⟨h1, ?_⟩
  intro hsup
  rw [h1, List.length_take]
  omega

/-- C4 witness: the cap theorem applied at a concrete positive cap and
page list. -/
theorem C4_fetch_all_studies_cap_witness :
    fetch_all_studies 5 (some 1) [Page.mk [(10 : Nat), 20] none]
      = (availableStudies [Page.mk [(10 : Nat), 20] none]).take 1 :=
  (C4_fetch_all_studies_cap 5 [Page.mk [(10 : Nat), 20] none] 1 (by decide)).1

/-- C5: an HTTP 400 response is classified as the stale-pagination
failure exactly when the request carried a (truthy) continuation
token; a 400 without a token propagates as an ordinary hard HTTP
failure; and the client issues no internal retry — its outcome ignores
every attempt beyond the first. -/
theorem C5_request_400_classification (params : ReqParams) (r : HttpResponse)
    (rest rest' : List AttemptResult) :
    (_request params (.response r :: rest) = .error .staleToken
        ↔ (r.status = 400 ∧ tokenTruthy params.pageToken = true))
      ∧ (r.status = 400 → tokenTruthy params.pageToken = false →
          _request params (.response r :: rest) = .error (.httpError 400))
      ∧ _request params (.response r :: rest) = _request params (.response r :: rest') := by
  refine ⟨⟨?_, ?_⟩, ?_, rfl⟩
  · intro h
    have h' : (if 400 ≤ r.status ∧ r.status < 600 then
          (Except.error (classify_http_error params r) : Except RequestFailure Json)
        else .ok r.body) = .error .staleToken := h
    split at h'
    case isFalse => cases h'
    case isTrue =>
      injection h' with h'
      unfold classify_http_error at h'
      split at h'
      · cases h'
      · split at h'
        · rename_i h400
          simp only [Bool.and_eq_true, beq_iff_eq] at h400
          exact h400
        · split at h'
          · cases h'
          · cases h'
  · rintro ⟨h4, ht⟩
    simp [_request, handleAttempt, classify_http_error, h4, ht]
  · intro h4 ht
    simp [_request, handleAttempt, classify_http_error, h4, ht]

/-- C5 witness: a concrete 400 with a token classifies as stale, the
same 400 without a token is a hard HTTP failure. -/
theorem C5_request_400_classification_witness :
    _request ⟨10, some "tok"⟩ [.response ⟨400, .null, false⟩] = .error .staleToken
      ∧ _request ⟨10, none⟩ [.response ⟨400, .null, false⟩] = .error (.httpError 400) :=
  ⟨(C5_request_400_classification ⟨10, some "tok"⟩ ⟨400, .null, false⟩ [] []).1.mpr
      ⟨rfl, rfl⟩,
   (C5_request_400_classification ⟨10, none⟩ ⟨400, .null, false⟩ [] []).2.1 rfl rfl⟩

/-- C8: for each dependent-table loader, a call whose outcome is an
error (an insert failed partway) leaves the committed store exactly as
it was — the single end-of-call commit never ran, so none of the
call's rows became visible. -/
theorem C8_dependent_loads_batch_atomic (rows : List Dict) (failP : Dict → Bool)
    (table : List Dict) :
    ((load_conditions rows failP table).2 = .error () →
        (load_conditions rows failP table).1 = table)
      ∧ ((load_locations rows failP table).2 = .error () →
          (load_locations rows failP table).1 = table)
      ∧ ((load_sponsors rows failP table).2 = .error () →
          (load_sponsors rows failP table).1 = table) := by
  unfold load_conditions load_locations load_sponsors
  refine ⟨?_, ?_, ?_⟩ <;>
    · split
      · intro h; cases h
      · split
        · intro _; rfl
        · intro h; cases h

/-- C8 witness: a concrete failing insert leaves the concrete store
unchanged. -/
theorem C8_dependent_loads_batch_atomic_witness :
    (load_conditions [[("study_id", Json.num 5)]] (fun _ => true)
        [[("a", Json.null)]]).1 = [[("a", Json.null)]] :=
  (C8_dependent_loads_batch_atomic [[("study_id", Json.num 5)]] (fun _ => true)
    [[("a", Json.null)]]).1 rfl

/-- C6 counterexample: a raw JSON object whose `protocolSection` is
null (present but `None`) makes `transform_study` raise
`AttributeError` instead of returning a record with absent fields, so
the claim's "missing or null" tolerance fails on the null half. -/
theorem C6_counterexample_null_module :
    transform_study (.obj [("protocolSection", .null)]) = .error "AttributeError" := rfl

/-- C6 (amended to missing-or-object fields): on every well-shaped
document — nested modules that are present are dictionaries, phases
when present null or a list of strings, keys may be missing anywhere —
`transform_study` returns a record without raising, and a document
with no `protocolSection` at all yields the all-absent record. -/
theorem C6_transform_study_wellshaped (doc : Json) (h : wellShaped doc = true) :
    (transform_study doc).toBool = true
      ∧ (∀ fs, doc = .obj fs →
          fs.find? (fun p => p.1 == "protocolSection") = none →
          transform_study doc = .ok blankStudyRecord) := by
  simp only [wellShaped, Bool.and_eq_true] at h
  obtain ⟨h0, ⟨⟨⟨h1, h2⟩, ⟨⟨⟨h3, h4⟩, h5⟩, h6⟩⟩, ⟨⟨h7, h8⟩, h9⟩⟩, h10⟩ := h
  constructor
  · obtain ⟨o, ho⟩ := parse_phase_ok_of_shape h9
    unfold transform_study
    rw [jget_of_isObj h0, except_bind_ok,
        jget_of_isObj h1, except_bind_ok,
        jget_of_isObj h1, except_bind_ok,
        jget_of_isObj h1, except_bind_ok,
        jget_of_isObj h1, except_bind_ok,
        jget_of_isObj h1, except_bind_ok,
        jget_of_isObj h3, except_bind_ok,
        jget_of_isObj h4, except_bind_ok,
        jget_of_isObj h3, except_bind_ok,
        jget_of_isObj h5, except_bind_ok,
        jget_of_isObj h3, except_bind_ok,
        jget_of_isObj h6, except_bind_ok,
        jget_of_isObj h7, except_bind_ok,
        jget_of_isObj h8, except_bind_ok,
        jget_of_isObj h8, except_bind_ok,
        jget_of_isObj h2, except_bind_ok,
        jget_of_isObj h2, except_bind_ok,
        jget_of_isObj h2, except_bind_ok,
        jget_of_isObj h10, except_bind_ok,
        jget_of_isObj h3, except_bind_ok,
        jget_of_isObj h7, except_bind_ok,
        ho, except_bind_ok,
        jget_of_isObj h7, except_bind_ok]
    rfl
  · intro fs hdoc hfind
    subst hdoc
    have e1 : jget (.obj fs) "protocolSection" (.obj []) = .ok (.obj []) := by
      simp [jget, hfind]
    unfold transform_study
    rw [e1, except_bind_ok]
    rfl

/-- C6 witness: the test suite's sample document is well-shaped and
transforms without raising; the empty object yields the all-absent
record. -/
theorem C6_transform_study_wellshaped_witness :
    wellShaped sampleDoc = true
      ∧ (transform_study sampleDoc).toBool = true
      ∧ transform_study (.obj []) = .ok blankStudyRecord := by
  refine ⟨rfl, ?_, ?_⟩
  · exact (C6_transform_study_wellshaped sampleDoc rfl).1
  · exact (C6_transform_study_wellshaped (.obj []) rfl).2 [] rfl rfl

/-- C7 counterexample: a one-line log whose single line parses as a
JSON object and carries an extractable natural identifier (`K = 0`),
but whose null `statusModule` makes field extraction raise: the claim
predicts `N - K = 1` records, the pass yields 0. -/
theorem C7_counterexample_extraction_error_line :
    (transform_raw_data [some statusNullDoc]).length
      ≠ ([some statusNullDoc] : List RawLine).length
          - List.countP lacksNaturalId [some statusNullDoc] := by
  decide

/-- C7 (amended): for a raw log in which every line that decodes to a
document with a truthy extractable natural identifier also transforms
without raising, the Study pass yields exactly `N - K` records, where
`K` counts the lines that fail to decode or lack a truthy extractable
natural identifier; all skipped lines are dropped without aborting the
pass. -/
theorem C7_study_pass_skip_accounting (lines : List RawLine)
    (h : lines.all studyLineOk = true) :
    (transform_raw_data lines).length
      = lines.length - lines.countP lacksNaturalId := by
  induction lines with
  | nil => rfl
  | cons l rest ih =>
    simp only [List.all_cons, Bool.and_eq_true] at h
    obtain ⟨hl, hrest⟩ := h
    have hK : rest.countP lacksNaturalId ≤ rest.length :=
      List.countP_le_length lacksNaturalId
    have hrec := ih hrest
    cases l with
    | none =>
      show (transform_raw_data rest).length = _
      have hlac : lacksNaturalId none = true := rfl
      rw [List.length_cons, List.countP_cons, hlac]
      simp only [if_true]
      omega
    | some j =>
      cases hx : extract_nct_id j with
      | error e =>
        have hskip : transform_raw_data (some j :: rest) = transform_raw_data rest := by
          simp [transform_raw_data, hx]
        have hlac : lacksNaturalId (some j) = true := by
          simp [lacksNaturalId, hx]
        rw [hskip, List.length_cons, List.countP_cons, hlac]
        simp only [if_true]
        omega
      | ok nct =>
        by_cases ht : truthy nct = true
        · have htr : ∃ rec, transform_study j = .ok rec := by
            simp only [studyLineOk, hx, ht, Bool.not_true, Bool.false_or] at hl
            cases htry : transform_study j with
            | error e => rw [htry] at hl; cases hl
            | ok rec => exact ⟨rec, rfl⟩
          obtain ⟨rec, hrec2⟩ := htr
          have hstep : transform_raw_data (some j :: rest)
              = (rec, nct) :: transform_raw_data rest := by
            simp [transform_raw_data, hx, ht, hrec2]
          have hlac : lacksNaturalId (some j) = false := by
            simp [lacksNaturalId, hx, ht]
          rw [hstep, List.length_cons, List.length_cons, List.countP_cons, hlac]
          simp only [Bool.false_eq_true, if_false]
          omega
        · have hstep : transform_raw_data (some j :: rest) = transform_raw_data rest := by
            simp [transform_raw_data, hx, ht]
          have hlac : lacksNaturalId (some j) = true := by
            simp [lacksNaturalId, hx, ht]
          rw [hstep, List.length_cons, List.countP_cons, hlac]
          simp only [if_true]
          omega

/-- C7 witness: a three-line log — one good document, one decode
failure, one document with no identifier — yields exactly 3 - 2 = 1
record. -/
theorem C7_study_pass_skip_accounting_witness :
    (transform_raw_data [some sampleDoc, none, some (.obj [])]).length
      = ([some sampleDoc, none, some (.obj [])] : List RawLine).length
          - List.countP lacksNaturalId [some sampleDoc, none, some (.obj [])] :=
  C7_study_pass_skip_accounting [some sampleDoc, none, some (.obj [])] rfl

/-- C9 counterexample: a design module carrying the non-negative
enrollment count 0 produces an absent enrollment, not 0 — Python's
`enrollment if enrollment else None` nulls the falsy count, so
enrollment can be absent even when the source supplies the count. -/
theorem C9_counterexample_zero_count :
    (transform_study zeroCountDoc).map (·.enrollment) = .ok Json.null
      ∧ Json.null ≠ Json.num 0 :=
  ⟨rfl, fun h => Json.noConfusion h⟩

/-- C9 (amended): when the document transforms successfully and its
`designModule.enrollmentInfo.count` is the integer `n`, the record's
enrollment is `n` for `n ≠ 0` and absent for `n = 0` (and it is also
absent whenever the count is omitted, since the read then defaults to
null, which is falsy). -/
theorem C9_enrollment_truthiness (doc : Json) (r : StudyRecord) (n : Int)
    (hok : transform_study doc = .ok r)
    (hcount : enrollment_count_path doc = .ok (.num n)) :
    r.enrollment = if n = 0 then Json.null else .num n := by
  unfold transform_study at hok
  obtain ⟨protocol, e1, hok⟩ := bind_ok_inv hok
  obtain ⟨idn, e2, hok⟩ := bind_ok_inv hok
  obtain ⟨status, e3, hok⟩ := bind_ok_inv hok
  obtain ⟨design, e4, hok⟩ := bind_ok_inv hok
  obtain ⟨elig, e5, hok⟩ := bind_ok_inv hok
  obtain ⟨descr, e6, hok⟩ := bind_ok_inv hok
  obtain ⟨sstruct, e7, hok⟩ := bind_ok_inv hok
  obtain ⟨sdate, e8, hok⟩ := bind_ok_inv hok
  obtain ⟨cstruct, e9, hok⟩ := bind_ok_inv hok
  obtain ⟨cdate, e10, hok⟩ := bind_ok_inv hok
  obtain ⟨pstruct, e11, hok⟩ := bind_ok_inv hok
  obtain ⟨pdate, e12, hok⟩ := bind_ok_inv hok
  obtain ⟨einfo, e13, hok⟩ := bind_ok_inv hok
  obtain ⟨cnt, e14, hok⟩ := bind_ok_inv hok
  obtain ⟨etype, e15, hok⟩ := bind_ok_inv hok
  obtain ⟨nct, e16, hok⟩ := bind_ok_inv hok
  obtain ⟨acro, e17, hok⟩ := bind_ok_inv hok
  obtain ⟨titl, e18, hok⟩ := bind_ok_inv hok
  obtain ⟨bsum, e19, hok⟩ := bind_ok_inv hok
  obtain ⟨ostat, e20, hok⟩ := bind_ok_inv hok
  obtain ⟨phv, e21, hok⟩ := bind_ok_inv hok
  obtain ⟨ph, e22, hok⟩ := bind_ok_inv hok
  obtain ⟨stype, e23, hok⟩ := bind_ok_inv hok
  unfold enrollment_count_path at hcount
  obtain ⟨p', c1, hcount⟩ := bind_ok_inv hcount
  obtain ⟨d', c2, hcount⟩ := bind_ok_inv hcount
  obtain ⟨ei', c3, hcount⟩ := bind_ok_inv hcount
  rw [e1] at c1
  injection c1 with c1
  subst c1
  rw [e4] at c2
  injection c2 with c2
  subst c2
  rw [e13] at c3
  injection c3 with c3
  subst c3
  rw [e14] at hcount
  injection hcount with hcount
  subst hcount
  simp only [pure, Except.pure, Except.ok.injEq] at hok
  subst hok
  by_cases hn : n = 0
  · subst hn
    simp [truthy]
  · simp [truthy, hn]

/-- C9 witness: the amended theorem applied at the zero-count
document, whose record is the all-absent one. -/
theorem C9_enrollment_truthiness_witness :
    blankStudyRecord.enrollment = if (0 : Int) = 0 then Json.null else Json.num 0 :=
  C9_enrollment_truthiness zeroCountDoc blankStudyRecord 0 rfl rfl

end CTA
